import Mathlib

/-!
Verification of the codec-dispatch core of the `python-driver` repository:
`cassandra/registry.py` (`MessageCodecRegistry`), `cassandra/context.py`
(`DriverContext` and its default registry build), and the override-handler
construction exercised in
`tests/integration/standard/test_custom_protocol_handler.py`.

Python dicts are modelled as association lists over `Nat` keys with
Python's update semantics (replacing an existing key keeps its position,
a new key is appended).  Codec functions are opaque values of a type
parameter `F`; for the default build `F` is instantiated with the
concrete inductive `CodecFn` of the functions registered by
`DriverContext._build_message_codec_registry`.
-/

/-- One binding lookup in the association-list model of a Python dict:
`d[k]` as an `Option`. -/
def dictGet {α : Type} (k : Nat) : List (Nat × α) → Option α
  | [] => none
  | (k', v) :: rest => if k' = k then some v else dictGet k rest

/-- Python dict assignment `d[k] = v`: replace the binding in place when the
key exists, append it otherwise. -/
def dictSet {α : Type} (k : Nat) (v : α) : List (Nat × α) → List (Nat × α)
  | [] => [(k, v)]
  | (k', v') :: rest =>
    if k' = k then (k, v) :: rest else (k', v') :: dictSet k v rest

/-- The two-level map `registry[protocol_version][opcode] -> func` used for
both `MessageCodecRegistry.encoders` and `.decoders`. -/
abbrev CodecMap (F : Type) := List (Nat × List (Nat × F))

/-- The failure raised by `MessageCodecRegistry._get` (a `ValueError` whose
message is formatted from the opcode and the protocol version; we keep the
two format arguments as fields). -/
structure CodecNotFound where
  opcode : Nat
  protocol_version : Nat
deriving DecidableEq

/-- `MessageCodecRegistry` from `cassandra/registry.py`: two dict-of-dict
maps, `encoders` and `decoders`. -/
structure MessageCodecRegistry (F : Type) where
  encoders : CodecMap F
  decoders : CodecMap F
deriving DecidableEq

/-- `MessageCodecRegistry.__init__`: both maps start empty. -/
def MessageCodecRegistry.init {F : Type} : MessageCodecRegistry F := ⟨[], []⟩

/-- `MessageCodecRegistry._add`: if the protocol version is absent, first
bind it to an empty inner dict; then assign the opcode binding in the inner
dict. -/
def regAdd {F : Type} (registry : CodecMap F) (protocol_version opcode : Nat)
    (func : F) : CodecMap F :=
  let registry :=
    match dictGet protocol_version registry with
    | none => dictSet protocol_version [] registry
    | some _ => registry
  dictSet protocol_version
    (dictSet opcode func ((dictGet protocol_version registry).getD []))
    registry

/-- `MessageCodecRegistry._get`: `registry[protocol_version][opcode]`, with
any `KeyError` (missing version or missing opcode) turned into the
`ValueError` carrying the opcode and the protocol version. -/
def regGet {F : Type} (registry : CodecMap F) (protocol_version opcode : Nat) :
    Except CodecNotFound F :=
  match dictGet protocol_version registry with
  | none => .error ⟨opcode, protocol_version⟩
  | some inner =>
    match dictGet opcode inner with
    | none => .error ⟨opcode, protocol_version⟩
    | some f => .ok f

def MessageCodecRegistry.add_encoder {F : Type} (r : MessageCodecRegistry F)
    (protocol_version opcode : Nat) (encoder : F) : MessageCodecRegistry F :=
  { r with encoders := regAdd r.encoders protocol_version opcode encoder }

def MessageCodecRegistry.add_decoder {F : Type} (r : MessageCodecRegistry F)
    (protocol_version opcode : Nat) (decoder : F) : MessageCodecRegistry F :=
  { r with decoders := regAdd r.decoders protocol_version opcode decoder }

def MessageCodecRegistry.get_encoder {F : Type} (r : MessageCodecRegistry F)
    (protocol_version opcode : Nat) : Except CodecNotFound F :=
  regGet r.encoders protocol_version opcode

def MessageCodecRegistry.get_decoder {F : Type} (r : MessageCodecRegistry F)
    (protocol_version opcode : Nat) : Except CodecNotFound F :=
  regGet r.decoders protocol_version opcode

/-- A registration call: `add_encoder` or `add_decoder` with its three
arguments. -/
inductive RegOp (F : Type) where
  | addEnc (protocol_version opcode : Nat) (f : F)
  | addDec (protocol_version opcode : Nat) (f : F)
deriving DecidableEq

/-- Run one registration call on a registry. -/
def applyRegOp {F : Type} (r : MessageCodecRegistry F) : RegOp F → MessageCodecRegistry F
  | .addEnc v o f => r.add_encoder v o f
  | .addDec v o f => r.add_decoder v o f

/-- Run a sequence of registration calls, oldest first. -/
def applyRegOps {F : Type} (r : MessageCodecRegistry F) (ops : List (RegOp F)) :
    MessageCodecRegistry F :=
  ops.foldl applyRegOp r

/-- The function passed to the most recent `add_encoder` call for exactly
the pair `(v, o)` in a call sequence, if any. -/
def lastEncAdded {F : Type} (v o : Nat) : List (RegOp F) → Option F
  | [] => none
  | op :: rest =>
    match lastEncAdded v o rest with
    | some f => some f
    | none =>
      match op with
      | .addEnc v' o' f => if v' = v ∧ o' = o then some f else none
      | _ => none

/-- The function passed to the most recent `add_decoder` call for exactly
the pair `(v, o)` in a call sequence, if any. -/
def lastDecAdded {F : Type} (v o : Nat) : List (RegOp F) → Option F
  | [] => none
  | op :: rest =>
    match lastDecAdded v o rest with
    | some f => some f
    | none =>
      match op with
      | .addDec v' o' f => if v' = v ∧ o' = o then some f else none
      | _ => none

-- ### Dict-level lemmas

theorem dictGet_dictSet_same {α : Type} (k : Nat) (v : α) (d : List (Nat × α)) :
    dictGet k (dictSet k v d) = some v := by
  induction d with
  | nil => simp [dictGet, dictSet]
  | cons p rest ih =>
    obtain ⟨k', v'⟩ := p
    by_cases h : k' = k
    · simp [dictGet, dictSet, h]
    · simp [dictGet, dictSet, h, ih]

theorem dictGet_dictSet_other {α : Type} (k k' : Nat) (v : α)
    (d : List (Nat × α)) (hne : k' ≠ k) :
    dictGet k (dictSet k' v d) = dictGet k d := by
  induction d with
  | nil => simp [dictGet, dictSet, hne]
  | cons p rest ih =>
    obtain ⟨k₀, v₀⟩ := p
    by_cases h : k₀ = k'
    · subst h
      simp [dictGet, dictSet, hne]
    · by_cases h2 : k₀ = k
      · subst h2
        simp [dictGet, dictSet, h, Ne.symm hne]
      · simp [dictGet, dictSet, h, h2, ih]

-- ### Registry-level lemmas

theorem regGet_regAdd_same {F : Type} (m : CodecMap F) (v o : Nat) (f : F) :
    regGet (regAdd m v o f) v o = .ok f := by
  unfold regAdd regGet
  cases h : dictGet v m with
  | none => simp [h, dictGet_dictSet_same]
  | some inner => simp [h, dictGet_dictSet_same]

theorem regGet_regAdd_other {F : Type} (m : CodecMap F) (v o v' o' : Nat)
    (f : F) (hne : ¬(v' = v ∧ o' = o)) :
    regGet (regAdd m v' o' f) v o = regGet m v o := by
  unfold regAdd regGet
  by_cases hv : v' = v
  · subst hv
    have ho : o' ≠ o := fun h => hne ⟨rfl, h⟩
    cases h : dictGet v' m with
    | none =>
      simp [h, dictGet_dictSet_same, dictGet_dictSet_other _ _ _ _ ho, dictGet, ho]
    | some inner =>
      simp [h, dictGet_dictSet_same, dictGet_dictSet_other _ _ _ _ ho]
  · cases h : dictGet v' m with
    | none =>
      simp [h, dictGet_dictSet_same, dictGet_dictSet_other _ _ _ _ hv]
    | some inner =>
      simp [h, dictGet_dictSet_other _ _ _ _ hv]

theorem add_encoder_decoders {F : Type} (r : MessageCodecRegistry F)
    (v o : Nat) (f : F) : (r.add_encoder v o f).decoders = r.decoders := rfl

theorem add_decoder_encoders {F : Type} (r : MessageCodecRegistry F)
    (v o : Nat) (f : F) : (r.add_decoder v o f).encoders = r.encoders := rfl

-- ### Concrete protocol constants and codec functions
--
-- The message classes, their opcodes and error codes live in
-- `cassandra/protocol.py`, which is not part of the given sources; only the
-- registration site in `cassandra/context.py` is.  The constants below are
-- therefore modelled from the spec.

/-- Modelled from the spec: `ProtocolVersion` (from the absent
`cassandra/protocol.py`) is a "small ordered integer identifying protocol
revision (e.g. 3, 4, 5)". -/
def ProtocolVersion.V3 : Nat := 3

def ProtocolVersion.V4 : Nat := 4

def ProtocolVersion.V5 : Nat := 5

/-- Modelled from the spec: opcodes are distinct single-byte tags, one per
outbound request kind and one per inbound response kind (the values are the
standard native-protocol ones; only their distinctness matters here). -/
def StartupMessage.opcode : Nat := 0x01

def RegisterMessage.opcode : Nat := 0x0B

def BatchMessage.opcode : Nat := 0x0D

def QueryMessage.opcode : Nat := 0x07

def ExecuteMessage.opcode : Nat := 0x0A

def PrepareMessage.opcode : Nat := 0x09

def OptionsMessage.opcode : Nat := 0x05

def AuthResponseMessage.opcode : Nat := 0x0F

def ReadyMessage.opcode : Nat := 0x02

def EventMessage.opcode : Nat := 0x0C

def ResultMessage.opcode : Nat := 0x08

def AuthenticateMessage.opcode : Nat := 0x03

def AuthSuccessMessage.opcode : Nat := 0x10

def AuthChallengeMessage.opcode : Nat := 0x0E

def SupportedMessage.opcode : Nat := 0x06

def ErrorMessage.opcode : Nat := 0x00

/-- Modelled from the spec: `ErrorCode` is a distinct 4-byte tag per error
variant, "used for a second dispatch level distinguishing concrete error
variants" (values are the standard ones; only distinctness matters). -/
def UnavailableErrorMessage.error_code : Nat := 0x1000

def ReadTimeoutErrorMessage.error_code : Nat := 0x1200

def WriteTimeoutErrorMessage.error_code : Nat := 0x1100

def IsBootstrappingErrorMessage.error_code : Nat := 0x1002

def OverloadedErrorMessage.error_code : Nat := 0x1001

def UnauthorizedErrorMessage.error_code : Nat := 0x2100

def ServerError.error_code : Nat := 0x0000

def ProtocolException.error_code : Nat := 0x000A

def BadCredentials.error_code : Nat := 0x0100

def TruncateError.error_code : Nat := 0x1003

def ReadFailureMessage.error_code : Nat := 0x1300

def FunctionFailureMessage.error_code : Nat := 0x1400

def WriteFailureMessage.error_code : Nat := 0x1500

def CDCWriteException.error_code : Nat := 0x1600

def SyntaxException.error_code : Nat := 0x2000

def InvalidRequestException.error_code : Nat := 0x2200

def ConfigurationException.error_code : Nat := 0x2300

def PreparedQueryNotFound.error_code : Nat := 0x2500

def AlreadyExistsException.error_code : Nat := 0x2400

/-- Opaque tags for the per-variant `decode` functions of the 19 error
message classes listed in `DriverContext._build_message_codec_registry`. -/
inductive ErrVariantFn where
  | unavailableDecode
  | readTimeoutDecode
  | writeTimeoutDecode
  | isBootstrappingDecode
  | overloadedDecode
  | unauthorizedDecode
  | serverErrorDecode
  | protocolExceptionDecode
  | badCredentialsDecode
  | truncateErrorDecode
  | readFailureDecode
  | functionFailureDecode
  | writeFailureDecode
  | cdcWriteExceptionDecode
  | syntaxExceptionDecode
  | invalidRequestDecode
  | configurationExceptionDecode
  | preparedQueryNotFoundDecode
  | alreadyExistsDecode
deriving DecidableEq

/-- Opaque tags for the functions registered by
`DriverContext._build_message_codec_registry` and by the custom handlers of
the integration test.  `errorCodecDecode tbl` stands for
`ErrorMessage.Codec(error_decoders).decode`, a closure over its secondary
dispatch table `tbl` (keyed by error code). -/
inductive CodecFn where
  | startupEncode
  | registerEncode
  | batchEncode
  | queryEncode
  | executeEncode
  | prepareEncode
  | optionsEncode
  | authResponseEncode
  | readyDecode
  | eventDecode
  | resultDecode
  | authenticateDecode
  | authSuccessDecode
  | authChallengeDecode
  | supportedDecode
  | errorCodecDecode (error_decoders : List (Nat × ErrVariantFn))
  | customRawRowDecode
  | customTrackedDecode
deriving DecidableEq

/-- The `error_decoders` list built in `_build_message_codec_registry`
(lines 59-79 of `context.py`): `(e.error_code, e.decode)` for the 19 listed
error message classes, in source order. -/
def error_decoders : List (Nat × ErrVariantFn) :=
  [(UnavailableErrorMessage.error_code, .unavailableDecode),
   (ReadTimeoutErrorMessage.error_code, .readTimeoutDecode),
   (WriteTimeoutErrorMessage.error_code, .writeTimeoutDecode),
   (IsBootstrappingErrorMessage.error_code, .isBootstrappingDecode),
   (OverloadedErrorMessage.error_code, .overloadedDecode),
   (UnauthorizedErrorMessage.error_code, .unauthorizedDecode),
   (ServerError.error_code, .serverErrorDecode),
   (ProtocolException.error_code, .protocolExceptionDecode),
   (BadCredentials.error_code, .badCredentialsDecode),
   (TruncateError.error_code, .truncateErrorDecode),
   (ReadFailureMessage.error_code, .readFailureDecode),
   (FunctionFailureMessage.error_code, .functionFailureDecode),
   (WriteFailureMessage.error_code, .writeFailureDecode),
   (CDCWriteException.error_code, .cdcWriteExceptionDecode),
   (SyntaxException.error_code, .syntaxExceptionDecode),
   (InvalidRequestException.error_code, .invalidRequestDecode),
   (ConfigurationException.error_code, .configurationExceptionDecode),
   (PreparedQueryNotFound.error_code, .preparedQueryNotFoundDecode),
   (AlreadyExistsException.error_code, .alreadyExistsDecode)]

/-- The outbound message classes of the first loop of
`_build_message_codec_registry`, as `(opcode, encode)` pairs in source
order. -/
def outbound_messages : List (Nat × CodecFn) :=
  [(StartupMessage.opcode, .startupEncode),
   (RegisterMessage.opcode, .registerEncode),
   (BatchMessage.opcode, .batchEncode),
   (QueryMessage.opcode, .queryEncode),
   (ExecuteMessage.opcode, .executeEncode),
   (PrepareMessage.opcode, .prepareEncode),
   (OptionsMessage.opcode, .optionsEncode),
   (AuthResponseMessage.opcode, .authResponseEncode)]

/-- The inbound codecs of the second loop of
`_build_message_codec_registry`, as `(codec.opcode, codec.decode)` pairs in
source order; the last is `ErrorMessage.Codec(error_decoders)`. -/
def inbound_codecs : List (Nat × CodecFn) :=
  [(ReadyMessage.opcode, .readyDecode),
   (EventMessage.opcode, .eventDecode),
   (ResultMessage.opcode, .resultDecode),
   (AuthenticateMessage.opcode, .authenticateDecode),
   (AuthSuccessMessage.opcode, .authSuccessDecode),
   (AuthChallengeMessage.opcode, .authChallengeDecode),
   (SupportedMessage.opcode, .supportedDecode),
   (ErrorMessage.opcode, .errorCodecDecode error_decoders)]

/-- The tuple `protocol_versions` of `_build_message_codec_registry`. -/
def protocol_versions : List Nat :=
  [ProtocolVersion.V3, ProtocolVersion.V4, ProtocolVersion.V5]

/-- `DriverContext._build_message_codec_registry`: start from a fresh
registry and, for each supported protocol version, register every outbound
encoder and every inbound decoder. -/
def build_message_codec_registry : MessageCodecRegistry CodecFn :=
  protocol_versions.foldl
    (fun registry v =>
      let registry :=
        outbound_messages.foldl
          (fun r p => r.add_encoder v p.1 p.2) registry
      inbound_codecs.foldl
        (fun r p => r.add_decoder v p.1 p.2) registry)
    MessageCodecRegistry.init

-- ### ProtocolHandler and the DriverContext state

/-- Modelled from the spec: `ProtocolHandler` is defined in
`cassandra/protocol.py`, which is not among the given sources; per the spec
it "holds its own encoder/decoder maps (captured from a CodecRegistry at
construction time)" and the snapshot "is not a live view of any registry it
was built from".  Construction therefore captures the map values passed to
`__init__`. -/
structure ProtocolHandler (F : Type) where
  encoders : CodecMap F
  decoders : CodecMap F
deriving DecidableEq

/-- Modelled from the spec: `_ProtocolHandler.__init__(encoders, decoders)`
stores the two maps as the handler's own snapshot. -/
def ProtocolHandler.init {F : Type} (encoders decoders : CodecMap F) :
    ProtocolHandler F :=
  ⟨encoders, decoders⟩

/-- Modelled from the spec: the handler's encode entry point is "a pure
lookup into the handler's own snapshot maps followed by invocation"; we
model the lookup. -/
def ProtocolHandler.get_encoder {F : Type} (h : ProtocolHandler F)
    (protocol_version opcode : Nat) : Except CodecNotFound F :=
  regGet h.encoders protocol_version opcode

/-- Modelled from the spec: the decode-side lookup of the handler. -/
def ProtocolHandler.get_decoder {F : Type} (h : ProtocolHandler F)
    (protocol_version opcode : Nat) : Except CodecNotFound F :=
  regGet h.decoders protocol_version opcode

/-- The mutable state of a `DriverContext` once its registry exists: the
registry object and the lazily-built default handler
(`_protocol_handler`). -/
structure DriverState (F : Type) where
  message_codec_registry : MessageCodecRegistry F
  protocol_handler : Option (ProtocolHandler F)

/-- The `protocol_handler` property of `DriverContext` (lines 33-39 of
`context.py`): build the handler from the registry's `encoders` and
`decoders` on first access and cache it; return the cached handler
afterwards. -/
def DriverState.protocol_handler_access {F : Type} (s : DriverState F) :
    ProtocolHandler F × DriverState F :=
  match s.protocol_handler with
  | some h => (h, s)
  | none =>
    let h := ProtocolHandler.init s.message_codec_registry.encoders
      s.message_codec_registry.decoders
    (h, { s with protocol_handler := some h })

/-- A later registration call performed on the context's registry. -/
def DriverState.applyOp {F : Type} (s : DriverState F) (op : RegOp F) :
    DriverState F :=
  { s with message_codec_registry := applyRegOp s.message_codec_registry op }

/-- A sequence of later registration calls on the context's registry. -/
def DriverState.applyOps {F : Type} (s : DriverState F) (ops : List (RegOp F)) :
    DriverState F :=
  ops.foldl DriverState.applyOp s

-- ### The custom handlers of the integration test

/-- `copy.deepcopy` on a decoder map: both dict levels are rebuilt
structurally; the function values are atomic for `deepcopy` and are kept
identical. -/
def deepcopy {F : Type} (d : CodecMap F) : CodecMap F :=
  d.map (fun p => (p.1, p.2.map (fun q => (q.1, q.2))))

/-- `CustomTestRawRowType.__init__(encoders, decoders)` from the
integration test: deep-copy the decoder map, then, for every version key
present, overwrite the binding at `CustomResultMessageRaw.opcode`
(inherited from `ResultMessage`) with
`CustomResultMessageRaw.Codec.decode`, and hand both maps to the base
handler constructor. -/
def CustomTestRawRowType.init (encoders decoders : CodecMap CodecFn) :
    ProtocolHandler CodecFn :=
  let decoders := deepcopy decoders
  let decoders := decoders.map
    (fun p => (p.1, dictSet ResultMessage.opcode CodecFn.customRawRowDecode p.2))
  ProtocolHandler.init encoders decoders

/-- `CustomProtocolHandlerResultMessageTracked.__init__(encoders, decoders)`
from the integration test: same copy-then-patch shape, substituting
`CustomResultMessageTracked.Codec.decode` at the `ResultMessage` opcode. -/
def CustomProtocolHandlerResultMessageTracked.init
    (encoders decoders : CodecMap CodecFn) : ProtocolHandler CodecFn :=
  let decoders := deepcopy decoders
  let decoders := decoders.map
    (fun p => (p.1, dictSet ResultMessage.opcode CodecFn.customTrackedDecode p.2))
  ProtocolHandler.init encoders decoders

/-- A session holding the base handler it was built with and the currently
installed `client_protocol_handler`. -/
structure SessionState where
  base : ProtocolHandler CodecFn
  client_protocol_handler : ProtocolHandler CodecFn

/-- `session.client_protocol_handler = CustomTestRawRowType`: the custom
handler class is instantiated from the base handler's maps and installed. -/
def SessionState.installCustomRaw (s : SessionState) : SessionState :=
  { s with client_protocol_handler :=
      CustomTestRawRowType.init s.base.encoders s.base.decoders }

/-- `session.client_protocol_handler =
CustomProtocolHandlerResultMessageTracked`, analogously. -/
def SessionState.installCustomTracked (s : SessionState) : SessionState :=
  { s with client_protocol_handler :=
      (CustomProtocolHandlerResultMessageTracked.init s.base.encoders
        s.base.decoders) }

-- ### Further helper lemmas

theorem dictGet_map {α β : Type} (g : α → β) (k : Nat)
    (d : List (Nat × α)) :
    dictGet k (d.map (fun p => (p.1, g p.2))) = (dictGet k d).map g := by
  induction d with
  | nil => simp [dictGet]
  | cons p rest ih =>
    obtain ⟨k₀, v₀⟩ := p
    by_cases h : k₀ = k
    · simp [dictGet, h]
    · simp [dictGet, h, ih]

theorem deepcopy_eq {F : Type} (d : CodecMap F) : deepcopy d = d := by
  simp [deepcopy]

theorem regGet_patch_other {F : Type} (d : CodecMap F) (op : Nat) (g : F)
    (v o : Nat) (ho : o ≠ op) :
    regGet (d.map (fun p => (p.1, dictSet op g p.2))) v o = regGet d v o := by
  unfold regGet
  rw [dictGet_map]
  cases h : dictGet v d with
  | none => simp
  | some inner =>
    simp [dictGet_dictSet_other _ _ _ _ (Ne.symm ho)]

theorem driverState_applyOps_handler {F : Type} (s : DriverState F)
    (ops : List (RegOp F)) :
    (s.applyOps ops).protocol_handler = s.protocol_handler := by
  induction ops generalizing s with
  | nil => rfl
  | cons op rest ih =>
    show ((s.applyOp op).applyOps rest).protocol_handler = _
    rw [ih]
    rfl

/-- If a call sequence contains no `add_encoder` for exactly `(v, o)`, the
encoder lookup at `(v, o)` is unchanged by running the sequence. -/
theorem applyRegOps_encoder_frame {F : Type} (ops : List (RegOp F))
    (v o : Nat) (h : lastEncAdded v o ops = none) (r : MessageCodecRegistry F) :
    (applyRegOps r ops).get_encoder v o = r.get_encoder v o := by
  induction ops generalizing r with
  | nil => rfl
  | cons op rest ih =>
    have hrest : lastEncAdded v o rest = none := by
      cases hr : lastEncAdded v o rest with
      | none => rfl
      | some f =>
        simp only [lastEncAdded, hr] at h
        exact h
    show (applyRegOps (applyRegOp r op) rest).get_encoder v o = _
    rw [ih hrest]
    cases op with
    | addDec v' o' f => rfl
    | addEnc v' o' f =>
      simp only [lastEncAdded, hrest] at h
      by_cases hc : v' = v ∧ o' = o
      · rw [if_pos hc] at h
        exact absurd h (by simp)
      · show (r.add_encoder v' o' f).get_encoder v o = _
        exact regGet_regAdd_other r.encoders v o v' o' f hc

/-- If a call sequence contains no `add_decoder` for exactly `(v, o)`, the
decoder lookup at `(v, o)` is unchanged by running the sequence. -/
theorem applyRegOps_decoder_frame {F : Type} (ops : List (RegOp F))
    (v o : Nat) (h : lastDecAdded v o ops = none) (r : MessageCodecRegistry F) :
    (applyRegOps r ops).get_decoder v o = r.get_decoder v o := by
  induction ops generalizing r with
  | nil => rfl
  | cons op rest ih =>
    have hrest : lastDecAdded v o rest = none := by
      cases hr : lastDecAdded v o rest with
      | none => rfl
      | some f =>
        simp only [lastDecAdded, hr] at h
        exact h
    show (applyRegOps (applyRegOp r op) rest).get_decoder v o = _
    rw [ih hrest]
    cases op with
    | addEnc v' o' f => rfl
    | addDec v' o' f =>
      simp only [lastDecAdded, hrest] at h
      by_cases hc : v' = v ∧ o' = o
      · rw [if_pos hc] at h
        exact absurd h (by simp)
      · show (r.add_decoder v' o' f).get_decoder v o = _
        exact regGet_regAdd_other r.decoders v o v' o' f hc

/-- After running a call sequence whose most recent `add_encoder` for
`(v, o)` passed `f`, the encoder lookup at `(v, o)` returns `f`. -/
theorem applyRegOps_encoder_last {F : Type} (ops : List (RegOp F))
    (v o : Nat) (f : F) (r : MessageCodecRegistry F)
    (h : lastEncAdded v o ops = some f) :
    (applyRegOps r ops).get_encoder v o = .ok f := by
  induction ops generalizing r with
  | nil => simp [lastEncAdded] at h
  | cons op rest ih =>
    show (applyRegOps (applyRegOp r op) rest).get_encoder v o = _
    cases hr : lastEncAdded v o rest with
    | some f' =>
      have hf : f' = f := by
        simp only [lastEncAdded, hr] at h
        exact Option.some.inj h
      subst hf
      exact ih _ hr
    | none =>
      cases op with
      | addDec v' o' g => simp [lastEncAdded, hr] at h
      | addEnc v' o' g =>
        simp only [lastEncAdded, hr] at h
        by_cases hc : v' = v ∧ o' = o
        · rw [if_pos hc] at h
          obtain ⟨hv, ho⟩ := hc
          subst hv; subst ho
          have hg : g = f := Option.some.inj h
          subst hg
          rw [applyRegOps_encoder_frame rest v' o' hr]
          exact regGet_regAdd_same r.encoders v' o' g
        · rw [if_neg hc] at h
          simp at h

/-- After running a call sequence whose most recent `add_decoder` for
`(v, o)` passed `f`, the decoder lookup at `(v, o)` returns `f`. -/
theorem applyRegOps_decoder_last {F : Type} (ops : List (RegOp F))
    (v o : Nat) (f : F) (r : MessageCodecRegistry F)
    (h : lastDecAdded v o ops = some f) :
    (applyRegOps r ops).get_decoder v o = .ok f := by
  induction ops generalizing r with
  | nil => simp [lastDecAdded] at h
  | cons op rest ih =>
    show (applyRegOps (applyRegOp r op) rest).get_decoder v o = _
    cases hr : lastDecAdded v o rest with
    | some f' =>
      have hf : f' = f := by
        simp only [lastDecAdded, hr] at h
        exact Option.some.inj h
      subst hf
      exact ih _ hr
    | none =>
      cases op with
      | addEnc v' o' g => simp [lastDecAdded, hr] at h
      | addDec v' o' g =>
        simp only [lastDecAdded, hr] at h
        by_cases hc : v' = v ∧ o' = o
        · rw [if_pos hc] at h
          obtain ⟨hv, ho⟩ := hc
          subst hv; subst ho
          have hg : g = f := Option.some.inj h
          subst hg
          rw [applyRegOps_decoder_frame rest v' o' hr]
          exact regGet_regAdd_same r.decoders v' o' g
        · rw [if_neg hc] at h
          simp at h

-- ### Derived concrete objects

/-- The default handler built by the `protocol_handler` property of a fresh
`DriverContext` (lines 33-39 of `context.py`): `ProtocolHandler` applied to
the default registry's `encoders` and `decoders`. -/
def default_protocol_handler : ProtocolHandler CodecFn :=
  ProtocolHandler.init build_message_codec_registry.encoders
    build_message_codec_registry.decoders

/-- The override handler of the integration test, instantiated from the
default handler's maps. -/
def custom_raw_handler : ProtocolHandler CodecFn :=
  CustomTestRawRowType.init default_protocol_handler.encoders
    default_protocol_handler.decoders

/-- Follows the spec's words (sections 4.2 and 8): the default registry,
written directly as the finished mapping — for each supported version one
entry holding the outbound encoder table, and one holding the inbound
decoder table.  Compared with the source-derived build in
`default_build_deterministic`. -/
def spec_default_registry : MessageCodecRegistry CodecFn :=
  { encoders := protocol_versions.map (fun v => (v, outbound_messages)),
    decoders := protocol_versions.map (fun v => (v, inbound_codecs)) }

-- ### The claims

/-- Claim C1: for any registry and any sequence of registration calls,
registering is total (re-registering an occupied pair is an ordinary
overwrite, never a failure — `_add` has no failure outcome in the model
because the source raises nothing), and a subsequent `get_encoder`
(resp. `get_decoder`) for `(v, o)` returns exactly the function passed to
the most recent `add_encoder` (resp. `add_decoder`) call for that exact
pair. -/
theorem get_returns_most_recent_add {F : Type} (r : MessageCodecRegistry F)
    (ops : List (RegOp F)) (v o : Nat) (f : F) :
    (lastEncAdded v o ops = some f →
      (applyRegOps r ops).get_encoder v o = .ok f)
    ∧ (lastDecAdded v o ops = some f →
      (applyRegOps r ops).get_decoder v o = .ok f) :=
  ⟨fun h => applyRegOps_encoder_last ops v o f r h,
   fun h => applyRegOps_decoder_last ops v o f r h⟩

/-- Witness for C1: registering twice at `(3, 7)` — the second call
overwrites the first, and the lookup returns the later function. -/
theorem get_returns_most_recent_add_witness :
    lastEncAdded 3 7 [RegOp.addEnc 3 7 (10 : Nat), RegOp.addEnc 3 7 42]
        = some 42
    ∧ (applyRegOps MessageCodecRegistry.init
        [RegOp.addEnc 3 7 (10 : Nat), RegOp.addEnc 3 7 42]).get_encoder 3 7
        = .ok 42 :=
  ⟨by decide,
   (get_returns_most_recent_add MessageCodecRegistry.init
      [RegOp.addEnc 3 7 (10 : Nat), RegOp.addEnc 3 7 42] 3 7 42).1 (by decide)⟩

/-- Claim C2: starting from a fresh registry, for any pair `(v, o)` for
which no registration was ever made (version absent entirely or opcode
absent under a present version), both lookups fail with the structured
`CodecNotFound` value carrying exactly that opcode and that protocol
version. -/
theorem get_never_registered_codec_not_found {F : Type}
    (ops : List (RegOp F)) (v o : Nat)
    (henc : lastEncAdded v o ops = none)
    (hdec : lastDecAdded v o ops = none) :
    (applyRegOps MessageCodecRegistry.init ops).get_encoder v o
        = .error ⟨o, v⟩
    ∧ (applyRegOps MessageCodecRegistry.init ops).get_decoder v o
        = .error ⟨o, v⟩ := by
  constructor
  · rw [applyRegOps_encoder_frame ops v o henc]
    rfl
  · rw [applyRegOps_decoder_frame ops v o hdec]
    rfl

/-- Witness for C2, the spec's own scenario: an encoder is registered for
`(V4, 0x07)` only; `get_encoder(V3, 0x07)` fails with `CodecNotFound`
referencing opcode `0x07` and version 3. -/
theorem get_never_registered_codec_not_found_witness :
    lastEncAdded 3 7 [RegOp.addEnc 4 7 (0 : Nat)] = none
    ∧ lastDecAdded 3 7 [RegOp.addEnc 4 7 (0 : Nat)] = none
    ∧ (applyRegOps MessageCodecRegistry.init
        [RegOp.addEnc 4 7 (0 : Nat)]).get_encoder 3 7 = .error ⟨7, 3⟩ :=
  ⟨by decide, by decide,
   (get_never_registered_codec_not_found [RegOp.addEnc 4 7 (0 : Nat)] 3 7
      (by decide) (by decide)).1⟩

/-- Claim C3 (spec-modelled: `ProtocolHandler` itself is outside the given
sources and is modelled as snapshotting the maps at construction, as the
spec states): once the context's `protocol_handler` property has built the
handler from the registry, any later sequence of `add_encoder`/`add_decoder`
calls on that registry leaves the stored handler the very handler that was
built, and that handler's encode and decode lookups for every
`(version, opcode)` pair are those of the registry at build time. -/
theorem protocol_handler_snapshot_immune {F : Type}
    (r : MessageCodecRegistry F) (ops : List (RegOp F)) (v o : Nat) :
    (((DriverState.mk r none).protocol_handler_access.2.applyOps
        ops).protocol_handler
      = some (DriverState.mk r none).protocol_handler_access.1)
    ∧ (DriverState.mk r none).protocol_handler_access.1.get_decoder v o
        = r.get_decoder v o
    ∧ (DriverState.mk r none).protocol_handler_access.1.get_encoder v o
        = r.get_encoder v o := by
  refine ⟨?_, rfl, rfl⟩
  rw [driverState_applyOps_handler]
  rfl

/-- Counterexample to C4 as stated: the internal dispatch table of the
default-built `ERROR` decoder (shown here for V3) has 19 pairwise-distinct
error-code keys — the 19 error classes listed in
`_build_message_codec_registry` — not 18. -/
theorem error_dispatch_table_not_18 :
    build_message_codec_registry.get_decoder ProtocolVersion.V3
        ErrorMessage.opcode
      = .ok (.errorCodecDecode error_decoders)
    ∧ (error_decoders.map Prod.fst).Nodup
    ∧ error_decoders.length = 19
    ∧ ¬error_decoders.length = 18 :=
  ⟨rfl, by decide, rfl, by decide⟩

/-- Claim C4 as amended: in the default-built registry, for each of V3, V4
and V5, the decoder registered for the `ERROR` opcode carries an internal
dispatch table keyed by error code only, containing exactly the 19 named
error variants (with pairwise-distinct keys) and no others. -/
theorem error_dispatch_table_exactly_19 :
    build_message_codec_registry.get_decoder ProtocolVersion.V3
        ErrorMessage.opcode = .ok (.errorCodecDecode error_decoders)
    ∧ build_message_codec_registry.get_decoder ProtocolVersion.V4
        ErrorMessage.opcode = .ok (.errorCodecDecode error_decoders)
    ∧ build_message_codec_registry.get_decoder ProtocolVersion.V5
        ErrorMessage.opcode = .ok (.errorCodecDecode error_decoders)
    ∧ error_decoders.map Prod.snd
      = [ErrVariantFn.unavailableDecode, .readTimeoutDecode,
         .writeTimeoutDecode, .isBootstrappingDecode, .overloadedDecode,
         .unauthorizedDecode, .serverErrorDecode, .protocolExceptionDecode,
         .badCredentialsDecode, .truncateErrorDecode, .readFailureDecode,
         .functionFailureDecode, .writeFailureDecode,
         .cdcWriteExceptionDecode, .syntaxExceptionDecode,
         .invalidRequestDecode, .configurationExceptionDecode,
         .preparedQueryNotFoundDecode, .alreadyExistsDecode]
    ∧ (error_decoders.map Prod.fst).Nodup :=
  ⟨rfl, rfl, rfl, rfl, by decide⟩

/-- Claim C5: the default-built registry's key space, exactly — for each of
V3, V4 and V5 the encoder map holds precisely the eight outbound opcodes
and the decoder map precisely the eight inbound opcodes, in registration
order, and nothing else. -/
theorem default_registry_exact_key_space :
    build_message_codec_registry.encoders.map
        (fun p => (p.1, p.2.map Prod.fst))
      = [(ProtocolVersion.V3, [StartupMessage.opcode, RegisterMessage.opcode,
           BatchMessage.opcode, QueryMessage.opcode, ExecuteMessage.opcode,
           PrepareMessage.opcode, OptionsMessage.opcode,
           AuthResponseMessage.opcode]),
         (ProtocolVersion.V4, [StartupMessage.opcode, RegisterMessage.opcode,
           BatchMessage.opcode, QueryMessage.opcode, ExecuteMessage.opcode,
           PrepareMessage.opcode, OptionsMessage.opcode,
           AuthResponseMessage.opcode]),
         (ProtocolVersion.V5, [StartupMessage.opcode, RegisterMessage.opcode,
           BatchMessage.opcode, QueryMessage.opcode, ExecuteMessage.opcode,
           PrepareMessage.opcode, OptionsMessage.opcode,
           AuthResponseMessage.opcode])]
    ∧ build_message_codec_registry.decoders.map
        (fun p => (p.1, p.2.map Prod.fst))
      = [(ProtocolVersion.V3, [ReadyMessage.opcode, EventMessage.opcode,
           ResultMessage.opcode, AuthenticateMessage.opcode,
           AuthSuccessMessage.opcode, AuthChallengeMessage.opcode,
           SupportedMessage.opcode, ErrorMessage.opcode]),
         (ProtocolVersion.V4, [ReadyMessage.opcode, EventMessage.opcode,
           ResultMessage.opcode, AuthenticateMessage.opcode,
           AuthSuccessMessage.opcode, AuthChallengeMessage.opcode,
           SupportedMessage.opcode, ErrorMessage.opcode]),
         (ProtocolVersion.V5, [ReadyMessage.opcode, EventMessage.opcode,
           ResultMessage.opcode, AuthenticateMessage.opcode,
           AuthSuccessMessage.opcode, AuthChallengeMessage.opcode,
           SupportedMessage.opcode, ErrorMessage.opcode])] :=
  ⟨rfl, rfl⟩

/-- Claim C6: the handler built from the default maps by the test's
`CustomTestRawRowType` (deep copy of the decoder map, override of the
`RESULT` opcode decoder in every version) looks up, for every other
`(version, opcode)` pair, the identical decode function value as the
unmodified base handler, and its encoder lookups agree with the base for
all pairs. -/
theorem custom_raw_handler_frame (v o : Nat) :
    (o ≠ ResultMessage.opcode →
      custom_raw_handler.get_decoder v o
        = default_protocol_handler.get_decoder v o)
    ∧ custom_raw_handler.get_encoder v o
        = default_protocol_handler.get_encoder v o := by
  constructor
  · intro ho
    show regGet ((deepcopy default_protocol_handler.decoders).map
        (fun p =>
          (p.1, dictSet ResultMessage.opcode CodecFn.customRawRowDecode p.2)))
        v o
      = regGet default_protocol_handler.decoders v o
    rw [deepcopy_eq]
    exact regGet_patch_other _ _ _ v o ho
  · rfl

/-- Witness for C6: the `ERROR` opcode differs from the `RESULT` opcode,
and the custom handler's decoder lookup for it agrees with the base. -/
theorem custom_raw_handler_frame_witness :
    ErrorMessage.opcode ≠ ResultMessage.opcode
    ∧ custom_raw_handler.get_decoder ProtocolVersion.V3 ErrorMessage.opcode
        = default_protocol_handler.get_decoder ProtocolVersion.V3
            ErrorMessage.opcode :=
  ⟨by decide,
   (custom_raw_handler_frame ProtocolVersion.V3 ErrorMessage.opcode).1
     (by decide)⟩

/-- Claim C7: instantiating either override handler of the test from a
session's base handler patches only a structural copy of the decoder map
(`deepcopy` is a faithful copy), so the base handler — and every encoder
and decoder entry it registers, at every pair — is identical before and
after the construction. -/
theorem override_construction_preserves_base (s : SessionState) (v o : Nat) :
    s.installCustomRaw.base = s.base
    ∧ s.installCustomTracked.base = s.base
    ∧ s.installCustomRaw.base.get_decoder v o = s.base.get_decoder v o
    ∧ s.installCustomRaw.base.get_encoder v o = s.base.get_encoder v o
    ∧ s.installCustomTracked.base.get_decoder v o = s.base.get_decoder v o
    ∧ s.installCustomTracked.base.get_encoder v o = s.base.get_encoder v o
    ∧ deepcopy s.base.decoders = s.base.decoders :=
  ⟨rfl, rfl, rfl, rfl, rfl, rfl, deepcopy_eq s.base.decoders⟩

/-- Claim C8: in the default-built registry, for every outbound opcode the
registered encoder is the identical function across V3, V4 and V5 — one
function per message kind, shared by all versions. -/
theorem encoders_uniform_across_versions (o : Nat)
    (ho : o ∈ outbound_messages.map Prod.fst) :
    build_message_codec_registry.get_encoder ProtocolVersion.V3 o
      = build_message_codec_registry.get_encoder ProtocolVersion.V4 o
    ∧ build_message_codec_registry.get_encoder ProtocolVersion.V4 o
      = build_message_codec_registry.get_encoder ProtocolVersion.V5 o := by
  fin_cases ho <;> exact ⟨rfl, rfl⟩

/-- Witness for C8 at the query opcode `0x07`. -/
theorem encoders_uniform_across_versions_witness :
    QueryMessage.opcode ∈ outbound_messages.map Prod.fst
    ∧ build_message_codec_registry.get_encoder ProtocolVersion.V3
        QueryMessage.opcode
      = build_message_codec_registry.get_encoder ProtocolVersion.V4
        QueryMessage.opcode :=
  ⟨by decide,
   (encoders_uniform_across_versions QueryMessage.opcode (by decide)).1⟩

/-- Claim C9: the default build is deterministic and idempotent — it always
produces exactly the mapping `spec_default_registry` written out from the
spec's description, so two builds have identical key sets and identical
entries at every pair. -/
theorem default_build_deterministic :
    build_message_codec_registry = spec_default_registry := rfl

/-- Claim C10: `add_encoder(v, o, f)` changes only the single encoder entry
at `(v, o)` — the decoder map is untouched and every encoder lookup at any
other pair is unchanged — and symmetrically for `add_decoder`. -/
theorem add_modifies_single_entry {F : Type} (r : MessageCodecRegistry F)
    (v o : Nat) (f : F) (v' o' : Nat) :
    (r.add_encoder v o f).decoders = r.decoders
    ∧ (r.add_encoder v o f).get_encoder v o = .ok f
    ∧ (¬(v = v' ∧ o = o') →
        (r.add_encoder v o f).get_encoder v' o' = r.get_encoder v' o')
    ∧ (r.add_decoder v o f).encoders = r.encoders
    ∧ (r.add_decoder v o f).get_decoder v o = .ok f
    ∧ (¬(v = v' ∧ o = o') →
        (r.add_decoder v o f).get_decoder v' o' = r.get_decoder v' o') := by
  refine ⟨rfl, regGet_regAdd_same r.encoders v o f, ?_, rfl,
    regGet_regAdd_same r.decoders v o f, ?_⟩
  · intro hne
    exact regGet_regAdd_other r.encoders v' o' v o f hne
  · intro hne
    exact regGet_regAdd_other r.decoders v' o' v o f hne

/-- Witness for C10: adding an encoder at `(3, 1)` leaves the lookup at
`(3, 2)` unchanged. -/
theorem add_modifies_single_entry_witness :
    ¬((3 : Nat) = 3 ∧ (1 : Nat) = 2)
    ∧ ((MessageCodecRegistry.init (F := Nat)).add_encoder 3 1 7).get_encoder
        3 2
      = (MessageCodecRegistry.init (F := Nat)).get_encoder 3 2 :=
  ⟨by decide,
   (add_modifies_single_entry MessageCodecRegistry.init 3 1 7 3 2).2.2.1
     (by decide)⟩
